import Mathlib

/-!
# Verification of the CTFd team-limit request hook

A shallow embedding of `__init__.py` of the CTFd-Groups-Plugin repository.
The plugin registers a single Flask `before_request` hook, `team_limit_check`,
which inspects team-creation and team-join requests and rejects a join with a
JSON error (HTTP 400) when the target team's bracket has a configured member
limit that the team has already reached.

The embedding models:
* Python attribute values reachable from a `Teams` ORM object (`PyVal`,
  `Attr`, `ExtraAttr`), including attribute reads that raise;
* the database visible to the hook (`DB`): the `Teams` rows and the
  `team_id` column of the `Users` rows, plus a flag for a failing count query;
* the request (`Request`): endpoint, method, form fields, the JSON payload's
  `team_id`, and the current user's bracket and email (which the source never
  reads — this is recorded so that independence from them can be stated);
* the hook itself (`team_limit_check`) and its helpers
  (`get_team_bracket_from_team_obj`, `find_team_by_form`, `joinCheck`),
  translated branch by branch from the source.
-/

set_option autoImplicit false

namespace CTFdGroups

/-- Result of a Python truthiness-checked value that can appear where the
plugin reads a bracket: `None`, a string, an int, or an object that may carry
a `name` attribute (whose read may itself raise) and has some `str()`
rendering. -/
inductive PyVal where
  | vNone
  | vStr (s : String)
  | vInt (n : Int)
  | vObj (nameRaises : Bool) (name : Option String) (strRep : String)
  deriving Repr, DecidableEq

/-- Python truthiness of a `PyVal`: `None`, `""` and `0` are falsy; a generic
object is truthy. -/
def PyVal.truthy : PyVal → Bool
  | .vNone => false
  | .vStr s => s != ""
  | .vInt n => n != 0
  | .vObj _ _ _ => true

/-- Python `str()` of a `PyVal`. -/
def PyVal.toStr : PyVal → String
  | .vNone => "None"
  | .vStr s => s
  | .vInt n => toString n
  | .vObj _ _ r => r

/-- An attribute read `getattr(team, attr, None)` either raises or yields a
value (`None` when the attribute is absent). -/
inductive Attr where
  | raises
  | val (v : PyVal)
  deriving Repr, DecidableEq

/-- The `team.extra` attribute: it may raise, be a non-dict value, or be a
dict (modelled as an association list). -/
inductive ExtraAttr where
  | raises
  | val (v : PyVal)
  | dict (entries : List (String × PyVal))
  deriving Repr, DecidableEq

/-- A `Teams` ORM row as the hook sees it: the `id` and `name` columns and
the attribute slots the bracket heuristics probe. -/
structure Team where
  id : Nat
  name : String
  bracket : Attr
  bracket_id : Attr
  scoreboard_bracket : Attr
  scoreboard_bracket_id : Attr
  extra : ExtraAttr
  deriving Repr, DecidableEq

/-- First return alternative: `if team: return team` control flow on
`Option`-valued queries — the first alternative that yields a value wins. -/
def orTry {α : Type} (a b : Option α) : Option α :=
  match a with
  | some x => some x
  | none => b

/-- One iteration of the attribute loop of `get_team_bracket_from_team_obj`
(source lines 26-36): a raising read is skipped by the `except: continue`, a
falsy value is skipped by `if value:`, an object with a truthy `name`
attribute is normalized to `str(name)`, anything else to `str(value)`. -/
def readAttr : Attr → Option String
  | .raises => none
  | .val v =>
    if v.truthy then
      match v with
      | .vObj nameRaises nm strRep =>
        if nameRaises then none
        else
          match nm with
          | some s => if s != "" then some s else some strRep
          | none => some strRep
      | w => some w.toStr
    else none

/-- `extra.get(key)` followed by the truthiness check of source line 43. -/
def extraLookup (entries : List (String × PyVal)) (key : String) : Option String :=
  match entries.lookup key with
  | some v => if v.truthy then some v.toStr else none
  | none => none

/-- Source lines 39-46: `if extra and isinstance(extra, dict)` and the key
loop over `bracket`, `scoreboard_bracket`, `bracket_name`; a raising read of
`extra` is swallowed by the `except: pass`. -/
def extraBracket : ExtraAttr → Option String
  | .dict entries =>
    if entries != [] then
      orTry (extraLookup entries "bracket")
        (orTry (extraLookup entries "scoreboard_bracket")
          (extraLookup entries "bracket_name"))
    else none
  | _ => none

/-- Source lines 18-48: probe the four direct attributes in order, then the
`extra` JSON dict. -/
def get_team_bracket_from_team_obj : Option Team → Option String
  | none => none
  | some team =>
    orTry (readAttr team.bracket)
      (orTry (readAttr team.bracket_id)
        (orTry (readAttr team.scoreboard_bracket)
          (orTry (readAttr team.scoreboard_bracket_id)
            (extraBracket team.extra))))

/-- The database state visible to the hook: the `Teams` rows, the `team_id`
column of every `Users` row (`none` for a user without a team), and whether
the member-count query raises. -/
structure DB where
  teams : List Team
  userTeamIds : List (Option Nat)
  countFails : Bool
  deriving Repr, DecidableEq

/-- `Teams.query.filter_by(id=i).first()` for an `int` id from the JSON
payload. -/
def findByIdInt (db : DB) (i : Int) : Option Team :=
  db.teams.find? (fun t => (t.id : Int) == i)

/-- `Teams.query.filter_by(id=int(val)).first()` for a digit-string form
value. -/
def findById (db : DB) (i : Nat) : Option Team :=
  db.teams.find? (fun t => t.id == i)

/-- `Teams.query.filter_by(name=s).first()`. -/
def findByName (db : DB) (s : String) : Option Team :=
  db.teams.find? (fun t => t.name == s)

/-- Python `str.isdigit`: nonempty and all digits. -/
def isPyDigit (s : String) : Bool :=
  s != "" && s.toList.all Char.isDigit

/-- `int(val)` for a digit string (only used under an `isPyDigit` guard):
the usual decimal reading. -/
def strToNat (s : String) : Nat :=
  s.toList.foldl (fun n c => n * 10 + (c.toNat - 48)) 0

/-- `key in form and form.get(key)`: the form field must be present and
truthy (nonempty). -/
def truthyGet (form : List (String × String)) (key : String) : Option String :=
  match form.lookup key with
  | some v => if v != "" then some v else none
  | none => none

/-- One iteration of the key loop of `find_team_by_form` (source lines
60-71): a digit value is first tried as an id, then the value is tried as a
name. -/
def tryFormKey (db : DB) (form : List (String × String)) (key : String) : Option Team :=
  match truthyGet form key with
  | some val =>
    orTry (if isPyDigit val then findById db (strToNat val) else none)
      (findByName db val)
  | none => none

/-- Source lines 50-79: try the keys `team_id`, `teamid`, `team` in order,
then fall back to the `name` field as a team name. -/
def find_team_by_form (db : DB) (form : List (String × String)) : Option Team :=
  orTry (tryFormKey db form "team_id")
    (orTry (tryFormKey db form "teamid")
      (orTry (tryFormKey db form "team")
        (match truthyGet form "name" with
         | some v => findByName db v
         | none => none)))

/-- The incoming request as the hook reads it. `jsonTeamId` encodes
`json_payload.get("team_id")` together with the `int(...)` conversion of
source lines 137-141: `none` = key absent or falsy, `some none` = present and
truthy but `int()` raises, `some (some n)` = `int()` yields `n`.
`userBracket` and `userEmail` are attributes of the current user; the source
never reads them (it reads only the user's display name, for logging), and
they are carried so that independence of the hook from them is statable. -/
structure Request where
  endpoint : Option String
  method : String
  form : List (String × String)
  jsonTeamId : Option (Option Int)
  userBracket : Option String
  userEmail : Option String
  deriving Repr, DecidableEq

/-- `TEAMS_MODE` of `CTFd.utils.modes`. -/
def TEAMS_MODE : String := "teams"

/-- The configuration the hook consults: `utils.get_config("user_mode")`. -/
structure Config where
  user_mode : Option String
  deriving Repr, DecidableEq

/-- Source lines 8-13: the per-bracket limit table (`None` = unlimited). -/
def BRACKET_LIMITS : List (String × Option Nat) :=
  [("PSU", some 4), ("Academic", none), ("Open", none)]

/-- `BRACKET_LIMITS.get(bracket)`: `None` both for a missing key and for a
key mapped to `None`. -/
def bracketLimit (b : String) : Option Nat :=
  (BRACKET_LIMITS.lookup b).join

/-- Python `str.strip()`: whitespace removed from both ends. -/
def pyStrip (s : String) : String :=
  String.mk (((s.toList.dropWhile Char.isWhitespace).reverse.dropWhile
    Char.isWhitespace).reverse)

/-- The number of `Users` rows whose `team_id` equals `tid`. -/
def dbMemberRows (db : DB) (tid : Nat) : Nat :=
  (db.userTeamIds.filter (fun u => u == some tid)).length

/-- Source lines 179-183: `Users.query.filter_by(team_id=team.id).count()`
wrapped in `try/except`; a raising query leaves `member_count = None`. -/
def memberCount (db : DB) (tid : Nat) : Option Nat :=
  if db.countFails then none else some (dbMemberRows db tid)

/-- Source lines 137-141: resolve the team from the JSON payload's
`team_id`; an `int()` failure leaves `team = None`. -/
def jsonTeam (db : DB) (req : Request) : Option Team :=
  match req.jsonTeamId with
  | some (some n) => findByIdInt db n
  | _ => none

/-- Source lines 136-145: JSON `team_id` first, then the form. -/
def resolveJoinTeam (db : DB) (req : Request) : Option Team :=
  orTry (jsonTeam db req) (find_team_by_form db req.form)

/-- Source lines 159-164: the join form's bracket fallback fields. -/
def formBracket (form : List (String × String)) : Option String :=
  orTry (truthyGet form "bracket")
    (orTry (truthyGet form "bracket_id") (truthyGet form "scoreboard_bracket"))

/-- Truthiness filter on an optional string (`if not bracket`). -/
def truthyStrOpt (o : Option String) : Option String :=
  match o with
  | some s => if s != "" then some s else none
  | none => none

/-- Source lines 154-169: bracket from the team object, else from the join
form. -/
def resolveJoinBracket (team : Team) (form : List (String × String)) : Option String :=
  orTry (truthyStrOpt (get_team_bracket_from_team_obj (some team)))
    (formBracket form)

/-- The outcome of the `before_request` hook: `proceed` models returning
`None` (the request passes through); `reject success status` models
returning `jsonify({"success": ..., "message": ...}), status` (the message
text is a formatted string carrying no further decision content). -/
inductive HookResult where
  | proceed
  | reject (success : Bool) (status : Nat)
  deriving Repr, DecidableEq

/-- Source lines 134-200, the join branch: resolve the team (else proceed),
resolve its bracket (else proceed), strip it, look up the limit, count the
members, and deny with a JSON error and HTTP 400 exactly when a limit is
configured, the count succeeded, and `member_count >= limit`. -/
def joinCheck (db : DB) (req : Request) : HookResult :=
  match resolveJoinTeam db req with
  | none => .proceed
  | some team =>
    match resolveJoinBracket team req.form with
    | none => .proceed
    | some b =>
      match bracketLimit (pyStrip b), memberCount db team.id with
      | some limit, some member_count =>
        if limit ≤ member_count then .reject false 400 else .proceed
      | _, _ => .proceed

/-- Source lines 82-203: the `before_request` hook. Not in teams mode:
proceed. Endpoint not a watched one: proceed. `teams.new` POST: proceed
(creation is only logged). `teams.join`/`api_teams_join` with POST or PUT:
run the join check. Anything else falls through to the final `return`. -/
def team_limit_check (cfg : Config) (db : DB) (req : Request) : HookResult :=
  if cfg.user_mode ≠ some TEAMS_MODE then .proceed
  else if req.endpoint ≠ some "teams.new" ∧ req.endpoint ≠ some "teams.join" ∧
      req.endpoint ≠ some "api_teams_join" then .proceed
  else if req.endpoint = some "teams.new" ∧ req.method = "POST" then .proceed
  else if (req.endpoint = some "teams.join" ∨ req.endpoint = some "api_teams_join") ∧
      (req.method = "POST" ∨ req.method = "PUT") then
    joinCheck db req
  else .proceed

/-! ## Spec-side definition for the team-resolution order (claim C5)

`resolveJoinTeamSpec` is written from the spec's words, to be compared with
`resolveJoinTeam`/`find_team_by_form`, which are translated from the source:
the JSON `team_id` as a numeric id first; then the form fields `team_id`,
`teamid`, `team` in order, each first as a numeric id and then as a team
name; finally the form field `name` as a team name; the first query that
returns a team wins. -/

/-- A form field tried as a numeric id (possible only for a digit value). -/
def idQueryForm (db : DB) (form : List (String × String)) (key : String) : Option Team :=
  match truthyGet form key with
  | some val => if isPyDigit val then findById db (strToNat val) else none
  | none => none

/-- A form field tried as a team name. -/
def nameQueryForm (db : DB) (form : List (String × String)) (key : String) : Option Team :=
  match truthyGet form key with
  | some val => findByName db val
  | none => none

/-- The resolution order as the spec states it: the listed queries in order,
the first one that returns a team wins. -/
def resolveJoinTeamSpec (db : DB) (req : Request) : Option Team :=
  List.findSome? id
    [ jsonTeam db req,
      idQueryForm db req.form "team_id", nameQueryForm db req.form "team_id",
      idQueryForm db req.form "teamid", nameQueryForm db req.form "teamid",
      idQueryForm db req.form "team", nameQueryForm db req.form "team",
      nameQueryForm db req.form "name" ]

/-! ## Concrete data for witnesses and counterexamples -/

/-- A team in the `PSU` bracket (stored as a direct string attribute). -/
def team1 : Team :=
  { id := 1, name := "T", bracket := .val (.vStr "PSU"), bracket_id := .val .vNone,
    scoreboard_bracket := .val .vNone, scoreboard_bracket_id := .val .vNone,
    extra := .val .vNone }

/-- A database in which `team1` already has 4 members. -/
def db1 : DB :=
  { teams := [team1], userTeamIds := [some 1, some 1, some 1, some 1], countFails := false }

/-- A join request naming `team1` through the form's `team_id` field. -/
def req1 : Request :=
  { endpoint := some "teams.join", method := "POST", form := [("team_id", "1")],
    jsonTeamId := none, userBracket := none, userEmail := none }

/-- Teams mode is active. -/
def cfg1 : Config := { user_mode := some TEAMS_MODE }

/-- A team carrying no bracket information at all. -/
def team2 : Team :=
  { id := 2, name := "U", bracket := .val .vNone, bracket_id := .val .vNone,
    scoreboard_bracket := .val .vNone, scoreboard_bracket_id := .val .vNone,
    extra := .val .vNone }

/-- A database in which the bracketless `team2` already has 4 members. -/
def db2 : DB :=
  { teams := [team2], userTeamIds := [some 2, some 2, some 2, some 2], countFails := false }

/-- A join request for `team2` issued by a user whose own bracket is `PSU`. -/
def req2 : Request :=
  { endpoint := some "teams.join", method := "POST", form := [("team_id", "2")],
    jsonTeamId := none, userBracket := some "PSU", userEmail := none }

/-- A team in the unlimited `Open` bracket. -/
def team3 : Team :=
  { id := 3, name := "V", bracket := .val (.vStr "Open"), bracket_id := .val .vNone,
    scoreboard_bracket := .val .vNone, scoreboard_bracket_id := .val .vNone,
    extra := .val .vNone }

/-- A database in which `team3` already has 5 members. -/
def db3 : DB :=
  { teams := [team3], userTeamIds := [some 3, some 3, some 3, some 3, some 3],
    countFails := false }

/-- A join request naming `team3`. -/
def req3 : Request :=
  { endpoint := some "teams.join", method := "POST", form := [("team_id", "3")],
    jsonTeamId := none, userBracket := none, userEmail := none }

/-! ## Basic lemmas about `orTry` -/

theorem orTry_assoc {α : Type} (a b c : Option α) :
    orTry (orTry a b) c = orTry a (orTry b c) := by
  cases a <;> rfl

theorem orTry_none_right {α : Type} (a : Option α) : orTry a none = a := by
  cases a <;> rfl

/-- Under teams mode, a join endpoint and a POST/PUT method, the hook is the
join check. -/
theorem team_limit_check_join (cfg : Config) (db : DB) (req : Request)
    (hmode : cfg.user_mode = some TEAMS_MODE)
    (hep : req.endpoint = some "teams.join" ∨ req.endpoint = some "api_teams_join")
    (hm : req.method = "POST" ∨ req.method = "PUT") :
    team_limit_check cfg db req = joinCheck db req := by
  unfold team_limit_check
  rcases hep with h | h <;> rcases hm with h2 | h2 <;>
    simp [h, h2, hmode, TEAMS_MODE]

/-- Claim C3: if the configured `user_mode` is not `TEAMS_MODE`, the hook
performs no validation and lets every request proceed unchanged, regardless
of endpoint, method, or payload. -/
theorem C3_not_teams_mode_skips (cfg : Config) (db : DB) (req : Request)
    (h : cfg.user_mode ≠ some TEAMS_MODE) :
    team_limit_check cfg db req = .proceed := by
  unfold team_limit_check
  rw [if_pos h]

/-- Witness for C3: in user mode, even a join request for a full `PSU` team
proceeds. -/
theorem C3_witness :
    team_limit_check { user_mode := some "users" } db1 req1 = .proceed :=
  C3_not_teams_mode_skips { user_mode := some "users" } db1 req1 (by decide)

/-- Claim C4: the hook intercepts only team-creation and team-join
requests; any request whose endpoint is none of `teams.new`, `teams.join`,
`api_teams_join` passes through with no response. -/
theorem C4_other_endpoints_pass (cfg : Config) (db : DB) (req : Request)
    (h1 : req.endpoint ≠ some "teams.new") (h2 : req.endpoint ≠ some "teams.join")
    (h3 : req.endpoint ≠ some "api_teams_join") :
    team_limit_check cfg db req = .proceed := by
  unfold team_limit_check
  split
  · rfl
  · rw [if_pos ⟨h1, h2, h3⟩]

/-- Witness for C4: a request to an unrelated endpoint proceeds even with a
full team in the database. -/
theorem C4_witness :
    team_limit_check cfg1 db1 { req1 with endpoint := some "challenges.listing" } = .proceed :=
  C4_other_endpoints_pass cfg1 db1 { req1 with endpoint := some "challenges.listing" }
    (by decide) (by decide) (by decide)

/-- Claim C9: a team-creation request is never rejected: every POST to
`teams.new` produces no response from the hook, regardless of bracket,
limits, or member counts. -/
theorem C9_team_creation_never_rejected (cfg : Config) (db : DB) (req : Request)
    (he : req.endpoint = some "teams.new") (hm : req.method = "POST") :
    team_limit_check cfg db req = .proceed := by
  unfold team_limit_check
  split
  · rfl
  · simp [he, hm]

/-- Witness for C9: creating a team in the limited `PSU` bracket proceeds
even though the database holds a full `PSU` team. -/
theorem C9_witness :
    team_limit_check cfg1 db1
      { req1 with endpoint := some "teams.new", form := [("bracket", "PSU")] } = .proceed :=
  C9_team_creation_never_rejected cfg1 db1
    { req1 with endpoint := some "teams.new", form := [("bracket", "PSU")] } rfl rfl

/-- Claim C1: for a join request handled while enforcement is active, if the
resolved team's bracket has a configured limit `L` in the static table and
the number of `Users` rows on the team is at least `L`, the hook rejects
with a JSON body with `success = false` and HTTP 400; with the count below
`L` it lets the request proceed. -/
theorem C1_join_limit_enforced (cfg : Config) (db : DB) (req : Request)
    (t : Team) (b : String) (L : Nat)
    (hmode : cfg.user_mode = some TEAMS_MODE)
    (hep : req.endpoint = some "teams.join" ∨ req.endpoint = some "api_teams_join")
    (hm : req.method = "POST" ∨ req.method = "PUT")
    (hteam : resolveJoinTeam db req = some t)
    (hbr : resolveJoinBracket t req.form = some b)
    (hlim : bracketLimit (pyStrip b) = some L)
    (hcnt : db.countFails = false) :
    (L ≤ dbMemberRows db t.id → team_limit_check cfg db req = .reject false 400) ∧
    (dbMemberRows db t.id < L → team_limit_check cfg db req = .proceed) := by
  rw [team_limit_check_join cfg db req hmode hep hm]
  unfold joinCheck
  simp only [hteam, hbr, hlim, memberCount, hcnt, Bool.false_eq_true, if_false]
  constructor
  · intro h
    rw [if_pos h]
  · intro h
    rw [if_neg (Nat.not_le.mpr h)]

/-- Witness for C1: with `team1` full (4 members in bracket `PSU`, limit 4)
the join is rejected with `success = false` and status 400. -/
theorem C1_witness :
    team_limit_check cfg1 db1 req1 = .reject false 400 :=
  (C1_join_limit_enforced cfg1 db1 req1 team1 "PSU" 4 rfl (Or.inl rfl) (Or.inl rfl)
    (by decide) (by decide) (by decide) rfl).1 (by decide)

/-- One key of `find_team_by_form` is exactly its id query followed by its
name query. -/
theorem tryFormKey_eq (db : DB) (form : List (String × String)) (key : String) :
    tryFormKey db form key = orTry (idQueryForm db form key) (nameQueryForm db form key) := by
  unfold tryFormKey idQueryForm nameQueryForm
  cases truthyGet form key
  · rfl
  · rename_i val
    cases h : isPyDigit val <;> simp [h, orTry]

/-- Claim C5: the target team of a join is resolved in a fixed order — the
JSON payload's `team_id` as a numeric id; then the form fields `team_id`,
`teamid`, `team`, each first as a numeric id and then as a team name;
finally the form field `name` as a team name — and the first query that
returns a team wins. -/
theorem C5_join_team_resolution_order (db : DB) (req : Request) :
    resolveJoinTeam db req = resolveJoinTeamSpec db req := by
  show orTry (jsonTeam db req)
      (orTry (tryFormKey db req.form "team_id")
        (orTry (tryFormKey db req.form "teamid")
          (orTry (tryFormKey db req.form "team")
            (nameQueryForm db req.form "name"))))
    = orTry (jsonTeam db req)
        (orTry (idQueryForm db req.form "team_id")
          (orTry (nameQueryForm db req.form "team_id")
            (orTry (idQueryForm db req.form "teamid")
              (orTry (nameQueryForm db req.form "teamid")
                (orTry (idQueryForm db req.form "team")
                  (orTry (nameQueryForm db req.form "team")
                    (orTry (nameQueryForm db req.form "name") none)))))))
  rw [tryFormKey_eq, tryFormKey_eq, tryFormKey_eq]
  rw [orTry_none_right]
  rw [orTry_assoc, orTry_assoc, orTry_assoc]

/-- Claim C7 (under an active join in which a team and a bracket were
resolved): the limit table maps `PSU` to 4 and `Academic` and `Open` to
unlimited; every other bracket name has no configured limit; the member
count is the number of `Users` rows with the team's id; and a bracket whose
stripped name has no configured limit imposes no restriction. -/
theorem C7_static_limit_table (cfg : Config) (db : DB) (req : Request)
    (t : Team) (b : String)
    (hmode : cfg.user_mode = some TEAMS_MODE)
    (hep : req.endpoint = some "teams.join" ∨ req.endpoint = some "api_teams_join")
    (hm : req.method = "POST" ∨ req.method = "PUT")
    (hteam : resolveJoinTeam db req = some t)
    (hbr : resolveJoinBracket t req.form = some b) :
    bracketLimit "PSU" = some 4 ∧ bracketLimit "Academic" = none ∧
    bracketLimit "Open" = none ∧
    (∀ b2, b2 ≠ "PSU" → bracketLimit b2 = none) ∧
    (db.countFails = false → memberCount db t.id = some (dbMemberRows db t.id)) ∧
    (bracketLimit (pyStrip b) = none → team_limit_check cfg db req = .proceed) := by
  refine ⟨by decide, by decide, by decide, ?_, ?_, ?_⟩
  · intro b2 hb2
    have e1 : (b2 == "PSU") = false := by simp [hb2]
    by_cases h2 : b2 = "Academic"
    · simp [bracketLimit, BRACKET_LIMITS, List.lookup, h2]
    · by_cases h3 : b2 = "Open"
      · simp [bracketLimit, BRACKET_LIMITS, List.lookup, h3]
      · have e2 : (b2 == "Academic") = false := by simp [h2]
        have e3 : (b2 == "Open") = false := by simp [h3]
        simp [bracketLimit, BRACKET_LIMITS, List.lookup, e1, e2, e3]
  · intro h
    simp [memberCount, h]
  · intro h
    rw [team_limit_check_join cfg db req hmode hep hm]
    unfold joinCheck
    simp only [hteam, hbr, h]

/-- Witness for C7: the table values; `Graduate` is unconfigured; the count
over `db1`; and a full `Open`-bracket team (5 members) whose join still
proceeds. -/
theorem C7_witness :
    bracketLimit "PSU" = some 4 ∧ bracketLimit "Academic" = none ∧
    bracketLimit "Open" = none ∧ bracketLimit "Graduate" = none ∧
    memberCount db3 team3.id = some (dbMemberRows db3 team3.id) ∧
    team_limit_check cfg1 db3 req3 = .proceed := by
  have h := C7_static_limit_table cfg1 db3 req3 team3 "Open" rfl (Or.inl rfl)
    (Or.inl rfl) (by decide) (by decide)
  exact ⟨h.1, h.2.1, h.2.2.1, h.2.2.2.1 "Graduate" (by decide),
    h.2.2.2.2.1 rfl, h.2.2.2.2.2 (by decide)⟩

/-- Claim C8: the defensive `try/except` fallbacks — a failing member-count
query yields `member_count = None` and the hook then proceeds instead of
rejecting or propagating; a raising attribute read contributes nothing to
the bracket search and is skipped; a JSON `team_id` whose `int()` conversion
raises leaves the team unresolved from JSON; a raising `extra` read yields
no bracket from `extra`. -/
theorem C8_defensive_fallbacks (cfg : Config) (db : DB) (req : Request)
    (t : Team) (b : String)
    (hmode : cfg.user_mode = some TEAMS_MODE)
    (hep : req.endpoint = some "teams.join" ∨ req.endpoint = some "api_teams_join")
    (hm : req.method = "POST" ∨ req.method = "PUT")
    (hteam : resolveJoinTeam db req = some t)
    (hbr : resolveJoinBracket t req.form = some b)
    (hfail : db.countFails = true) :
    team_limit_check cfg db req = .proceed ∧
    memberCount db t.id = none ∧
    readAttr Attr.raises = none ∧
    (∀ db2 req2, req2.jsonTeamId = some none → jsonTeam db2 req2 = none) ∧
    extraBracket ExtraAttr.raises = none := by
  refine ⟨?_, by simp [memberCount, hfail], rfl, ?_, rfl⟩
  · rw [team_limit_check_join cfg db req hmode hep hm]
    unfold joinCheck
    simp only [hteam, hbr, memberCount, hfail, if_true]
    cases bracketLimit (pyStrip b) <;> rfl
  · intro db2 req2 h
    unfold jsonTeam
    rw [h]

/-- Witness for C8: with the count query failing, joining the full `PSU`
team `team1` proceeds; and the raising reads yield `none`. -/
theorem C8_witness :
    team_limit_check cfg1 { db1 with countFails := true } req1 = .proceed ∧
    memberCount { db1 with countFails := true } team1.id = none ∧
    readAttr Attr.raises = none ∧
    jsonTeam db1 { req1 with jsonTeamId := some none } = none ∧
    extraBracket ExtraAttr.raises = none := by
  have h := C8_defensive_fallbacks cfg1 { db1 with countFails := true } req1 team1 "PSU"
    rfl (Or.inl rfl) (Or.inl rfl) (by decide) (by decide) rfl
  exact ⟨h.1, h.2.1, h.2.2.1, h.2.2.2.1 db1 { req1 with jsonTeamId := some none } rfl,
    h.2.2.2.2⟩

/-- Claim C10: the hook fails open on joins — if no team can be resolved
from the JSON payload or the form, or if no bracket can be determined for
the resolved team from the team object or the form, the hook produces no
response and the request proceeds to the normal handler. -/
theorem C10_fails_open (cfg : Config) (db : DB) (req : Request)
    (hmode : cfg.user_mode = some TEAMS_MODE)
    (hep : req.endpoint = some "teams.join" ∨ req.endpoint = some "api_teams_join")
    (hm : req.method = "POST" ∨ req.method = "PUT") :
    (resolveJoinTeam db req = none → team_limit_check cfg db req = .proceed) ∧
    (∀ t, resolveJoinTeam db req = some t → resolveJoinBracket t req.form = none →
      team_limit_check cfg db req = .proceed) := by
  rw [team_limit_check_join cfg db req hmode hep hm]
  constructor
  · intro h
    unfold joinCheck
    rw [h]
  · intro t h1 h2
    unfold joinCheck
    simp only [h1, h2]

/-- Witness for C10: a join naming a nonexistent team proceeds, and a join
of the bracketless `team2` proceeds. -/
theorem C10_witness :
    team_limit_check cfg1 db1 { req1 with form := [("team_id", "99")] } = .proceed ∧
    team_limit_check cfg1 db2 req2 = .proceed :=
  ⟨(C10_fails_open cfg1 db1 { req1 with form := [("team_id", "99")] } rfl (Or.inl rfl)
      (Or.inl rfl)).1 (by decide),
   (C10_fails_open cfg1 db2 req2 rfl (Or.inl rfl) (Or.inl rfl)).2 team2 (by decide)
      (by decide)⟩

/-- Claim C2 is false of the source: the hook performs no email-suffix check
at all — the hook as a function of the requesting user's email is the
constant function ignoring it, so no request is ever rejected on an
email-domain basis. This proves the negation of the claim's existential. -/
theorem C2_counterexample_no_email_check :
    (fun (cfg : Config) (db : DB) (req : Request) (e : Option String) =>
      team_limit_check cfg db { req with userEmail := e }) =
    (fun (cfg : Config) (db : DB) (req : Request) (_ : Option String) =>
      team_limit_check cfg db req) := rfl

/-- Claim C2 (amended): the hook performs no email-suffix check — its result
is independent of the requesting user's email — and the only rejection it
can issue is the member-count-limit rejection: every rejected request has
`success = false`, status 400, a resolved team and bracket, a configured
limit for the stripped bracket, and a successful member count at or above
that limit. -/
theorem C2_amended_rejections_only_for_limits (cfg : Config) (db : DB) (req : Request)
    (e : Option String) (s : Bool) (st : Nat) :
    team_limit_check cfg db { req with userEmail := e } = team_limit_check cfg db req ∧
    (team_limit_check cfg db req = .reject s st →
      s = false ∧ st = 400 ∧
      ∃ t b L c, resolveJoinTeam db req = some t ∧ resolveJoinBracket t req.form = some b ∧
        bracketLimit (pyStrip b) = some L ∧ memberCount db t.id = some c ∧ L ≤ c) := by
  constructor
  · rfl
  · intro h
    unfold team_limit_check at h
    split at h
    · exact HookResult.noConfusion h
    · split at h
      · exact HookResult.noConfusion h
      · split at h
        · exact HookResult.noConfusion h
        · split at h
          · unfold joinCheck at h
            split at h
            · exact HookResult.noConfusion h
            · rename_i t hteam
              split at h
              · exact HookResult.noConfusion h
              · rename_i b hbr
                split at h
                · rename_i L c hlim hcnt
                  split at h
                  · rename_i hle
                    injection h with h1 h2
                    exact ⟨h1.symm, h2.symm, t, b, L, c, hteam, hbr, hlim, hcnt, hle⟩
                  · exact HookResult.noConfusion h
                · exact HookResult.noConfusion h
          · exact HookResult.noConfusion h

/-- Witness for C2 (amended): a concrete rejected join — every part of the
characterization holds there, and changing the email does not change the
outcome. -/
theorem C2_amended_witness :
    team_limit_check cfg1 db1 { req1 with userEmail := some "user@example.org" } =
      team_limit_check cfg1 db1 req1 ∧
    (false = false ∧ (400 : Nat) = 400 ∧
      ∃ t b L c, resolveJoinTeam db1 req1 = some t ∧ resolveJoinBracket t req1.form = some b ∧
        bracketLimit (pyStrip b) = some L ∧ memberCount db1 t.id = some c ∧ L ≤ c) :=
  ⟨(C2_amended_rejections_only_for_limits cfg1 db1 req1 (some "user@example.org")
      false 400).1,
   (C2_amended_rejections_only_for_limits cfg1 db1 req1 (some "user@example.org")
      false 400).2 (by decide)⟩

/-- Claim C6 is false of the source in its last part: the requesting user's
own bracket is not a source of the classification. Concretely: the user's
bracket is `PSU` (limit 4), the target team already has 4 members and
carries no bracket anywhere, and the join still proceeds — had the user's
bracket been consulted, the limit check would have rejected it. -/
theorem C6_counterexample_user_bracket_ignored :
    req2.userBracket = some "PSU" ∧ bracketLimit "PSU" = some 4 ∧
    dbMemberRows db2 team2.id = 4 ∧ resolveJoinTeam db2 req2 = some team2 ∧
    get_team_bracket_from_team_obj (some team2) = none ∧
    team_limit_check cfg1 db2 req2 = .proceed := by decide

/-- Claim C6 (amended): the classification is resolved from the team object
(direct attributes, normalizing an object with a `name` attribute to that
name, then the `extra` dict) and, if the team yields none, from the join
form's `bracket`, `bracket_id` or `scoreboard_bracket` field; the requesting
user's own bracket is never consulted — the hook's outcome is independent of
it. -/
theorem C6_amended_bracket_sources (cfg : Config) (db : DB) (req : Request)
    (ub : Option String) (t : Team) (form : List (String × String)) (s : String) :
    team_limit_check cfg db { req with userBracket := ub } = team_limit_check cfg db req ∧
    (get_team_bracket_from_team_obj (some t) = some s → s ≠ "" →
      resolveJoinBracket t form = some s) ∧
    (get_team_bracket_from_team_obj (some t) = none →
      resolveJoinBracket t form = formBracket form) := by
  refine ⟨rfl, ?_, ?_⟩
  · intro h hs
    unfold resolveJoinBracket truthyStrOpt
    simp [h, hs, orTry]
  · intro h
    unfold resolveJoinBracket truthyStrOpt
    simp [h, orTry]

/-- Witness for C6 (amended): the outcome of a join is unchanged by the
user's bracket; `team1`'s attribute yields its bracket; for the bracketless
`team2` the form fallback is used. -/
theorem C6_amended_witness :
    team_limit_check cfg1 db2 { req2 with userBracket := some "Academic" } =
      team_limit_check cfg1 db2 req2 ∧
    resolveJoinBracket team1 [] = some "PSU" ∧
    resolveJoinBracket team2 [("bracket", "Open")] = formBracket [("bracket", "Open")] :=
  ⟨(C6_amended_bracket_sources cfg1 db2 req2 (some "Academic") team1 [] "PSU").1,
   (C6_amended_bracket_sources cfg1 db2 req2 (some "Academic") team1 [] "PSU").2.1
      (by decide) (by decide),
   (C6_amended_bracket_sources cfg1 db2 req2 (some "Academic") team2
      [("bracket", "Open")] "PSU").2.2 (by decide)⟩

end CTFdGroups
